import Mathlib

/-!
Shallow embedding of the gh-skyline STL generation core (Go packages `stl`,
`geometry`, `utils`) and verification of its specification claims.

Conventions of the embedding:
* Go `float64` values are embedded as exact rationals `ℚ`.
* Go functions that can return an `error` are embedded as `Except Err _` or
  `Option Err` results; a Go run-time panic (out-of-range slice index) is a
  distinguished `Outcome.panics` value.
* Calls into code that is outside the embedded source (the `geometry`
  package primitives `CreateColumn`, `CreateCube`, `CreateCuboidBase`,
  `Create3DText`, the image decoder, the logger and the file system) are
  parameters of the embedded functions: their results are supplied as inputs.
-/

namespace GhSkyline

/-- `types.Point3D`: three float64 coordinates, embedded as rationals. -/
@[ext]
structure Point3D where
  x : ℚ
  y : ℚ
  z : ℚ
deriving DecidableEq

/-- `types.Triangle`: one normal vector and three vertices. -/
@[ext]
structure Triangle where
  normal : Point3D
  v1 : Point3D
  v2 : Point3D
  v3 : Point3D
deriving DecidableEq

/-- `types.ContributionDay`: a date string and a contribution count. -/
structure ContributionDay where
  date : String
  contributionCount : Nat
deriving DecidableEq

/-- One year of contribution data: weeks, each a list of days. -/
abbrev YearGrid : Type := List (List ContributionDay)

/-- Error values of the program: the `internal/errors` kinds, plus a
wrapping constructor (`errors.Wrap`) and a marker for logger failures. -/
inductive Err where
  | validation (msg : String)
  | io (msg : String)
  | stl (msg : String)
  | network (msg : String)
  | logFailure
  | wrap (ctx : String) (e : Err)
deriving DecidableEq

/-- Result of a top-level call: normal return with no error, an error
return, or a Go run-time panic. -/
inductive Outcome where
  | ok
  | err (e : Err)
  | panics (msg : String)
deriving DecidableEq

/-- Boolean success test for an `Except` result. -/
def exceptOk : Except Err (List Triangle) → Bool
  | .ok _ => true
  | .error _ => false

/-- Triangle list carried by an `Except` result, empty on error. -/
def okList : Except Err (List Triangle) → List Triangle
  | .ok ts => ts
  | .error _ => []

/-! ## Mesh transform utilities (`translateTriangles`, `scaleTriangles`,
`calcBoundingBox` from the `stl` package) -/

/-- `translateTriangles`: adds the offset to every vertex of every
triangle; the normal is copied unchanged. -/
def translateTriangles (triangles : List Triangle) (dx dy dz : ℚ) : List Triangle :=
  triangles.map fun t =>
    ⟨t.normal,
     ⟨t.v1.x + dx, t.v1.y + dy, t.v1.z + dz⟩,
     ⟨t.v2.x + dx, t.v2.y + dy, t.v2.z + dz⟩,
     ⟨t.v3.x + dx, t.v3.y + dy, t.v3.z + dz⟩⟩

/-- `scaleTriangles`: multiplies every vertex coordinate by the factor;
the normal is copied unchanged (the Go source writes `Normal: t.Normal`). -/
def scaleTriangles (triangles : List Triangle) (scale : ℚ) : List Triangle :=
  triangles.map fun t =>
    ⟨t.normal,
     ⟨t.v1.x * scale, t.v1.y * scale, t.v1.z * scale⟩,
     ⟨t.v2.x * scale, t.v2.y * scale, t.v2.z * scale⟩,
     ⟨t.v3.x * scale, t.v3.y * scale, t.v3.z * scale⟩⟩

/-- Scaling of a single point, used to state specification claims about
`scaleTriangles`. -/
def scalePoint (scale : ℚ) (p : Point3D) : Point3D :=
  ⟨p.x * scale, p.y * scale, p.z * scale⟩

/-- The scale operation as the SPECIFICATION describes it: it multiplies
every vertex coordinate AND every normal component by the factor. Written
from the spec's words, to be compared with `scaleTriangles` (the source). -/
def scaleTrianglesPerSpec (triangles : List Triangle) (scale : ℚ) : List Triangle :=
  triangles.map fun t =>
    ⟨scalePoint scale t.normal,
     scalePoint scale t.v1, scalePoint scale t.v2, scalePoint scale t.v3⟩

/-- `math.MaxFloat64`, the sentinel seed of `calcBoundingBox`. -/
def maxFloat64 : ℚ := (2 ^ 53 - 1) * 2 ^ 971

/-- The six bounding-box accumulators of `calcBoundingBox`. -/
structure BBox where
  minX : ℚ
  minY : ℚ
  minZ : ℚ
  maxX : ℚ
  maxY : ℚ
  maxZ : ℚ
deriving DecidableEq

/-- One comparison step of `calcBoundingBox` for a single vertex. -/
def bboxStep (b : BBox) (v : Point3D) : BBox :=
  ⟨if v.x < b.minX then v.x else b.minX,
   if v.y < b.minY then v.y else b.minY,
   if v.z < b.minZ then v.z else b.minZ,
   if v.x > b.maxX then v.x else b.maxX,
   if v.y > b.maxY then v.y else b.maxY,
   if v.z > b.maxZ then v.z else b.maxZ⟩

/-- `calcBoundingBox`: folds the six extrema over all vertices of all
triangles, seeded with `±math.MaxFloat64`. -/
def calcBoundingBox (triangles : List Triangle) : BBox :=
  triangles.foldl (fun b t => bboxStep (bboxStep (bboxStep b t.v1) t.v2) t.v3)
    ⟨maxFloat64, maxFloat64, maxFloat64, -maxFloat64, -maxFloat64, -maxFloat64⟩

/-- The list of all Z coordinates of the vertices of a triangle list, in
traversal order, used to reason about `calcBoundingBox` and translation. -/
def zlist : List Triangle → List ℚ
  | [] => []
  | t :: ts => t.v1.z :: t.v2.z :: t.v3.z :: zlist ts

/-- The min-comparison step used by `calcBoundingBox` on one coordinate. -/
def stepMin (m z : ℚ) : ℚ := if z < m then z else m

/-- `modelDimensions` from the `stl` package. -/
structure ModelDims where
  innerWidth : ℚ
  innerDepth : ℚ
  imagePath : String

/-- The `character.stl` merge block of `GenerateSTLRange` (the statements
between a successful read of the auxiliary mesh and its append): scale the
character mesh to 70%, compute its bounding box, and translate it by
`dx = innerWidth - charWidth - minX - 10`,
`dy = innerDepth - charDepth - minY - 3`,
`dz = 0 - minZ - 0.5`. -/
def mergeCharacter (dims : ModelDims) (characterTriangles : List Triangle) : List Triangle :=
  let scaled := scaleTriangles characterTriangles (7 / 10)
  let b := calcBoundingBox scaled
  let charWidth := b.maxX - b.minX
  let charDepth := b.maxY - b.minY
  let dx := dims.innerWidth - charWidth - b.minX - 10
  let offset : ℚ := 3
  let dy := dims.innerDepth - charDepth - b.minY - offset
  let dz := 0 - b.minZ - 1 / 2
  translateTriangles scaled dx dy dz

/-! ## Orchestrator (`generateModelGeometry`) and geometry producers -/

/-- `geometryResult`: the value sent over each producer's channel. -/
structure geometryResult where
  triangles : List Triangle
  err : Option Err
deriving DecidableEq

/-- The four producer results available at the orchestrator's fan-in
point. Each Go goroutine sends exactly one `geometryResult` on its own
unbuffered channel; this structure records those four values. -/
structure OrchResults where
  base : geometryResult
  columns : geometryResult
  text : geometryResult
  image : geometryResult

/-- The fan-in loop of `generateModelGeometry`: read the named channels in
the fixed program order; abort with a wrapped error on the first result
carrying an error, otherwise append the triangles in that order. -/
def mergeLoop : List (String × geometryResult) → List Triangle → Except Err (List Triangle)
  | [], acc => .ok acc
  | (name, r) :: rest, acc =>
    match r.err with
    | some e => .error (.wrap ("failed to generate " ++ name ++ " geometry") e)
    | none => mergeLoop rest (acc ++ r.triangles)

/-- `generateModelGeometry`: validates that the per-year data is
non-empty, launches the four producers, then reads their channels in the
fixed order base, image, columns, text. The first component is the
returned value, the second the list of geometry tasks launched (in `go`
statement order). `completionOrder` records the real-time order in which
the concurrent producers happen to finish; each producer's value is read
from its own dedicated channel, so the function does not consult it. -/
def generateModelGeometry (results : OrchResults) (_completionOrder : List String)
    (contributionsPerYear : List YearGrid) : Except Err (List Triangle) × List String :=
  match contributionsPerYear with
  | [] => (.error (.validation "contributions data cannot be empty"), [])
  | _ :: _ =>
    (mergeLoop [("base", results.base), ("image", results.image),
                ("columns", results.columns), ("text", results.text)] [],
     ["base", "columns", "text", "image"])

/-- `generateBase`: wraps the result of `geometry.CreateCuboidBase`
(supplied as `createCuboidBaseResult`). On failure it logs a warning
whose outcome is `warnResult` (`none` = the log call succeeded): a failed
warning makes the log error the producer's result, otherwise the producer
reports an empty mesh with no error. -/
def generateBase (createCuboidBaseResult : Except Err (List Triangle))
    (warnResult : Option Err) : geometryResult :=
  match createCuboidBaseResult with
  | .error _ =>
    match warnResult with
    | some logErr => ⟨[], some logErr⟩
    | none => ⟨[], none⟩
  | .ok ts => ⟨ts, none⟩

/-- Zero-pads a decimal string to the given width (`fmt.Sprintf` with a
`%0Nd` verb, for the nonnegative years that occur here). -/
def pad0 (w : Nat) (s : String) : String :=
  if s.length < w then String.mk (List.replicate (w - s.length) '0') ++ s else s

/-- The `embossedRight` string computed by `generateText`: the right text
if present, else the year, else the `%04d-%02d` year range. -/
def embossedRightText (startYear endYear : Int) (rightText : String) : String :=
  if rightText ≠ "" then rightText
  else if startYear = endYear then toString endYear
  else pad0 4 (toString startYear) ++ "-" ++ pad0 2 (toString (endYear % 100))

/-- `generateText`: computes the embossed right text, calls
`geometry.Create3DText` (supplied as the function `create3DText` of the
username, right text and top text), and applies the same
failure-to-warning wrapping as `generateBase`. -/
def generateText (create3DText : String → String → String → Except Err (List Triangle))
    (username : String) (startYear endYear : Int) (topText rightText : String)
    (warnResult : Option Err) : geometryResult :=
  let embossedRight := embossedRightText startYear endYear rightText
  match create3DText username embossedRight topText with
  | .error _ =>
    match warnResult with
    | some logErr => ⟨[], some logErr⟩
    | none => ⟨[], none⟩
  | .ok ts => ⟨ts, none⟩

/-- `generateLogoWithCustomPath`: wraps the result of
`geometry.GenerateImageGeometryWithPath` with the same
failure-to-warning policy as the other producers. -/
def generateLogoWithCustomPath (imageGeometryResult : Except Err (List Triangle))
    (warnResult : Option Err) : geometryResult :=
  match imageGeometryResult with
  | .error _ =>
    match warnResult with
    | some logErr => ⟨[], some logErr⟩
    | none => ⟨[], none⟩
  | .ok ts => ⟨ts, none⟩

/-! ## Contribution column generator (`CreateContributionGeometry` of the
`stl` package)

The `geometry` package primitives it calls are parameters: `CellSize`,
`YearOffset`, `YearSpacing` (constants), `NormalizeContribution` (height
normalization) and `CreateColumn` (column box builder). `warnOk` is the
outcome of the warning log call made when a column fails (`true` = the
log call succeeds). -/

section Columns

variable (CellSize YearOffset YearSpacing : ℚ)
variable (NormalizeContribution : Nat → Nat → ℚ)
variable (CreateColumn : ℚ → ℚ → ℚ → ℚ → Except Err (List Triangle))
variable (warnOk : Bool)

/-- The inner day loop of `CreateContributionGeometry`: `none` models the
`return nil` taken when the warning log call itself fails (which discards
all triangles accumulated so far). -/
def daysLoop (maxContrib : Nat) (x baseY : ℚ) :
    Nat → List ContributionDay → Option (List Triangle)
  | _, [] => some []
  | dayIdx, day :: rest =>
    if day.contributionCount > 0 then
      let height := NormalizeContribution day.contributionCount maxContrib
      let y := baseY + (dayIdx : ℚ) * CellSize
      match CreateColumn x y height CellSize with
      | .error _ =>
        if warnOk then
          daysLoop maxContrib x baseY (dayIdx + 1) rest
        else
          none
      | .ok columnTriangles =>
        match daysLoop maxContrib x baseY (dayIdx + 1) rest with
        | none => none
        | some ts => some (columnTriangles ++ ts)
    else
      daysLoop maxContrib x baseY (dayIdx + 1) rest

/-- The outer week loop of `CreateContributionGeometry`. -/
def weeksLoop (maxContrib : Nat) (baseY : ℚ) :
    Nat → List (List ContributionDay) → Option (List Triangle)
  | _, [] => some []
  | weekIdx, week :: rest =>
    match daysLoop CellSize NormalizeContribution CreateColumn warnOk
        maxContrib ((weekIdx : ℚ) * CellSize) baseY 0 week with
    | none => none
    | some ts =>
      match weeksLoop maxContrib baseY (weekIdx + 1) rest with
      | none => none
      | some ts2 => some (ts ++ ts2)

/-- `CreateContributionGeometry`: one column per cell with positive count,
at `x = weekIdx * CellSize`, `y = yearIndex * (YearOffset + YearSpacing) +
dayIdx * CellSize`, of height `NormalizeContribution count maxContrib`. -/
def CreateContributionGeometry (contributions : List (List ContributionDay))
    (yearIndex maxContrib : Nat) : List Triangle :=
  let baseYOffset := (yearIndex : ℚ) * (YearOffset + YearSpacing)
  (weeksLoop CellSize NormalizeContribution CreateColumn warnOk
    maxContrib baseYOffset 0 contributions).getD []

/-- The column emitted for one cell, as the claim describes it: the
`CreateColumn` box at `x = weekIdx * CellSize`,
`y = yearIndex * (YearOffset + YearSpacing) + dayIdx * CellSize` with
height `NormalizeContribution count maxContrib` and footprint `CellSize`. -/
def columnAt (yearIndex weekIdx dayIdx count maxContrib : Nat) : List Triangle :=
  okList (CreateColumn ((weekIdx : ℚ) * CellSize)
    ((yearIndex : ℚ) * (YearOffset + YearSpacing) + (dayIdx : ℚ) * CellSize)
    (NormalizeContribution count maxContrib) CellSize)

/-- Per-week reference geometry: cells with positive count contribute
their `columnAt` box, cells with count 0 contribute nothing. -/
def columnsSpecDays (yearIndex weekIdx maxContrib : Nat) :
    Nat → List ContributionDay → List Triangle
  | _, [] => []
  | dayIdx, day :: rest =>
    (if day.contributionCount > 0 then
      columnAt CellSize YearOffset YearSpacing NormalizeContribution CreateColumn
        yearIndex weekIdx dayIdx day.contributionCount maxContrib
     else []) ++
    columnsSpecDays yearIndex weekIdx maxContrib (dayIdx + 1) rest

/-- Reference geometry of a whole year grid, week by week. -/
def columnsSpec (yearIndex maxContrib : Nat) :
    Nat → List (List ContributionDay) → List Triangle
  | _, [] => []
  | weekIdx, week :: rest =>
    columnsSpecDays CellSize YearOffset YearSpacing NormalizeContribution CreateColumn
      yearIndex weekIdx maxContrib 0 week ++
    columnsSpec yearIndex maxContrib (weekIdx + 1) rest

end Columns

/-! ## Image-to-voxel path (`renderImage`, `createVoxelOnFace` of the
`geometry` package) -/

/-- `baseWidthVoxelResolution`: voxel samples across the skyline face. -/
def baseWidthVoxelResolution : ℚ := 2000

/-- A decoded image as the Go code observes it: its bounds and, per
pixel, the red and alpha channels returned by `RGBA()` (each in
`0 .. 65535`). -/
structure GoImage where
  width : Nat
  height : Nat
  red : Nat → Nat → Nat
  alpha : Nat → Nat → Nat

/-- The activity test of `renderImage`: both the alpha channel and the
red channel must exceed 32768 (50% of the 2^16 full scale). -/
def imagePixelActive (img : GoImage) (x y : Nat) : Bool :=
  img.alpha x y > 32768 && img.red x y > 32768

section ImageVoxels

variable (CreateCube : ℚ → ℚ → ℚ → ℚ → ℚ → ℚ → Except Err (List Triangle))

/-- `createVoxelOnFace`: maps a raster coordinate back into model-space
millimeters and builds the one-cell box protruding from the front face by
calling `geometry.CreateCube` (a parameter of the embedding). -/
def createVoxelOnFace (x y height baseWidth baseHeight : ℚ) : Except Err (List Triangle) :=
  let xResolution := baseWidthVoxelResolution
  let yResolution := xResolution * baseHeight / baseWidth
  let voxelSize : ℚ := 1
  let xm := (x / xResolution) * baseWidth
  let ym := (y / yResolution) * baseHeight
  let voxelSizeX := (voxelSize / xResolution) * baseWidth
  let voxelSizeY := (voxelSize / yResolution) * baseHeight
  CreateCube xm (-height) (-voxelSizeY - ym) voxelSizeX height voxelSizeY

/-- The voxel box `renderImage` requests for source pixel `(x, y)`. -/
def imageVoxelCall (scale height leftOff topOff baseWidth baseHeight : ℚ)
    (faceWidthRes faceHeightRes : ℚ) (x y : Nat) : Except Err (List Triangle) :=
  createVoxelOnFace CreateCube
    (leftOff * faceWidthRes + (x : ℚ) * scale)
    (topOff * faceHeightRes + (y : ℚ) * scale)
    height baseWidth baseHeight

/-- The inner pixel loop of `renderImage` over one image column: Go runs
`y` from `logoHeight - 1` down to `0`; the fuel argument `n` covers the
pixels `y = n - 1, n - 2, ..., 0` in that order. A failing voxel build
aborts the whole rendering with an `STLError`. -/
def imageColLoop (img : GoImage) (scale height leftOff topOff baseWidth baseHeight : ℚ)
    (faceWidthRes faceHeightRes : ℚ) (x : Nat) : Nat → Except Err (List Triangle)
  | 0 => .ok []
  | n + 1 =>
    if imagePixelActive img x n then
      match imageVoxelCall CreateCube scale height leftOff topOff baseWidth baseHeight
          faceWidthRes faceHeightRes x n with
      | .error _ => .error (.stl "failed to create cube")
      | .ok voxel =>
        match imageColLoop img scale height leftOff topOff baseWidth baseHeight
            faceWidthRes faceHeightRes x n with
        | .error e => .error e
        | .ok ts => .ok (voxel ++ ts)
    else
      imageColLoop img scale height leftOff topOff baseWidth baseHeight
        faceWidthRes faceHeightRes x n

/-- The outer pixel loop of `renderImage` over the image columns
`x, x + 1, ...` (`n` columns remain). -/
def imageXLoop (img : GoImage) (scale height leftOff topOff baseWidth baseHeight : ℚ)
    (faceWidthRes faceHeightRes : ℚ) : Nat → Nat → Except Err (List Triangle)
  | _, 0 => .ok []
  | x, n + 1 =>
    match imageColLoop CreateCube img scale height leftOff topOff baseWidth baseHeight
        faceWidthRes faceHeightRes x img.height with
    | .error e => .error e
    | .ok ts =>
      match imageXLoop img scale height leftOff topOff baseWidth baseHeight
          faceWidthRes faceHeightRes (x + 1) n with
      | .error e => .error e
      | .ok ts2 => .ok (ts ++ ts2)

/-- Go `int(_)` conversion of a float: truncation toward zero. -/
def goTrunc (q : ℚ) : ℚ := if 0 ≤ q then (⌊q⌋ : ℚ) else -(⌊-q⌋ : ℚ)

/-- `renderImage` on a decoded image: computes the face raster resolution
and walks every source pixel, emitting one voxel box for each active one. -/
def renderImage (img : GoImage) (scale height leftOff topOff baseWidth baseHeight : ℚ) :
    Except Err (List Triangle) :=
  let faceWidthRes := baseWidthVoxelResolution
  let faceHeightRes := goTrunc (faceWidthRes * baseHeight / baseWidth)
  imageXLoop CreateCube img scale height leftOff topOff baseWidth baseHeight
    faceWidthRes faceHeightRes 0 img.width

/-- Reference geometry of one image column (`y` descending, as the code
iterates): active pixels contribute their voxel box, inactive pixels
contribute nothing. -/
def imageColSpec (img : GoImage) (scale height leftOff topOff baseWidth baseHeight : ℚ)
    (faceWidthRes faceHeightRes : ℚ) (x : Nat) : Nat → List Triangle
  | 0 => []
  | n + 1 =>
    (if imagePixelActive img x n then
      okList (imageVoxelCall CreateCube scale height leftOff topOff baseWidth baseHeight
        faceWidthRes faceHeightRes x n)
     else []) ++
    imageColSpec img scale height leftOff topOff baseWidth baseHeight
      faceWidthRes faceHeightRes x n

/-- Reference geometry of the whole image, column by column. -/
def imageSpec (img : GoImage) (scale height leftOff topOff baseWidth baseHeight : ℚ)
    (faceWidthRes faceHeightRes : ℚ) : Nat → Nat → List Triangle
  | _, 0 => []
  | x, n + 1 =>
    imageColSpec CreateCube img scale height leftOff topOff baseWidth baseHeight
      faceWidthRes faceHeightRes x img.height ++
    imageSpec img scale height leftOff topOff baseWidth baseHeight
      faceWidthRes faceHeightRes (x + 1) n

end ImageVoxels

/-! ## ASCII STL reader (`ReadASCIISTL` of the `stl` package)

The reader works line by line on the already-read file contents. Go's
`strconv.ParseFloat` is a parameter `parseFloat`; `none` models a failed
parse, for which Go's `ParseFloat` returns the value 0 together with the
error that the code discards. A Go slice access past the end of
`strings.Fields` of a short line is a run-time panic, modeled as an
`Except.error`. -/

/-- The whitespace characters recognized when splitting and trimming. -/
def goIsSpace (c : Char) : Bool :=
  c = ' ' || c = '\t' || c = '\n' || c = '\r'

/-- `strings.HasPrefix` on character lists. -/
def goHasPrefix : List Char → List Char → Bool
  | _, [] => true
  | [], _ :: _ => false
  | c :: cs, p :: ps => c = p && goHasPrefix cs ps

/-- `strings.TrimSpace` on character lists. -/
def goTrim (s : List Char) : List Char :=
  ((s.dropWhile goIsSpace).reverse.dropWhile goIsSpace).reverse

/-- Accumulating worker of `goFields`. -/
def goFieldsAux : List Char → List Char → List String
  | [], cur => if cur = [] then [] else [String.mk cur.reverse]
  | c :: cs, cur =>
    if goIsSpace c then
      if cur = [] then goFieldsAux cs []
      else String.mk cur.reverse :: goFieldsAux cs []
    else
      goFieldsAux cs (c :: cur)

/-- `strings.Fields`: splits around runs of whitespace. -/
def goFields (s : List Char) : List String := goFieldsAux s []

/-- State of the ASCII STL scanner: the current facet normal, the
vertices collected since the last `endfacet`, and the triangles so far. -/
structure ReadState where
  normal : Point3D
  vertices : List Point3D
  triangles : List Triangle
deriving DecidableEq

section AsciiStl

variable (parseFloat : String → Option ℚ)

/-- The value the code uses for one numeric field: the parsed float, or 0
when the parse fails (Go's `ParseFloat` returns the value 0 alongside the
syntax error that the source discards with `_`). -/
def parseOrZero (s : String) : ℚ := (parseFloat s).getD 0

/-- Processing of one input line by `ReadASCIISTL`: recognize
`facet normal`, `vertex` and `endfacet` on the trimmed line; the indexed
field accesses past the end of a short keyword line are the Go run-time
panic, modeled as an error. -/
def readLine (line : String) (st : ReadState) : Except String ReadState :=
  let l := goTrim line.data
  if goHasPrefix l "facet normal".data then
    match goFields l with
    | _ :: _ :: a :: b :: c :: _ =>
      .ok ⟨⟨parseOrZero parseFloat a, parseOrZero parseFloat b,
        parseOrZero parseFloat c⟩, st.vertices, st.triangles⟩
    | _ => .error "index out of range"
  else if goHasPrefix l "vertex".data then
    match goFields l with
    | _ :: a :: b :: c :: _ =>
      .ok ⟨st.normal, st.vertices ++ [⟨parseOrZero parseFloat a,
        parseOrZero parseFloat b, parseOrZero parseFloat c⟩], st.triangles⟩
    | _ => .error "index out of range"
  else if goHasPrefix l "endfacet".data then
    match st.vertices with
    | [u, v, w] => .ok ⟨st.normal, [], st.triangles ++ [⟨st.normal, u, v, w⟩]⟩
    | _ => .ok ⟨st.normal, [], st.triangles⟩
  else
    .ok st

/-- The scanner loop of `ReadASCIISTL` over the input lines. -/
def readLoop : List String → ReadState → Except String (List Triangle)
  | [], st => .ok st.triangles
  | line :: rest, st =>
    match readLine parseFloat line st with
    | .error e => .error e
    | .ok st2 => readLoop rest st2

/-- `ReadASCIISTL` on the lines of an already-opened file. -/
def ReadASCIISTL (lines : List String) : Except String (List Triangle) :=
  readLoop parseFloat lines ⟨⟨0, 0, 0⟩, [], []⟩

end AsciiStl

/-- Field-count sanity of one input line: `facet normal` lines carry at
least the three numeric fields the code indexes, `vertex` lines likewise.
Lines violating this make the Go code panic on a slice index, which is
not the lenient-parse behavior under study. -/
def lineFieldsOk (line : String) : Prop :=
  (goHasPrefix (goTrim line.data) "facet normal".data = true →
    5 ≤ (goFields (goTrim line.data)).length) ∧
  (goHasPrefix (goTrim line.data) "vertex".data = true →
    4 ≤ (goFields (goTrim line.data)).length)

instance (line : String) : Decidable (lineFieldsOk line) := by
  unfold lineFieldsOk
  infer_instance

/-! ## Top-level pipeline (`GenerateSTL`, `GenerateSTLRange`) -/

/-- `validateInput`: shape checks on the first year's grid, the output
path and the username, in source order. -/
def validateInput (gridSize : Nat) (contributions : List (List ContributionDay))
    (outputPath username : String) : Option Err :=
  if contributions.length = 0 then
    some (.validation "contributions data cannot be empty")
  else if contributions.length > gridSize then
    some (.validation "contributions data exceeds maximum grid size")
  else if outputPath = "" then
    some (.validation "output path cannot be empty")
  else if username = "" then
    some (.validation "username cannot be empty")
  else
    none

/-- `findMaxContributions`: the largest day count of one year grid. -/
def findMaxContributions (contributions : List (List ContributionDay)) : Nat :=
  contributions.foldl
    (fun m week => week.foldl
      (fun m2 day => if day.contributionCount > m2 then day.contributionCount else m2) m)
    0

/-- `findMaxContributionsAcrossYears`: the largest day count over all
requested years. -/
def findMaxContributionsAcrossYears (contributionsPerYear : List YearGrid) : Nat :=
  contributionsPerYear.foldl
    (fun m year =>
      let yearMax := findMaxContributions year
      if yearMax > m then yearMax else m)
    0

/-- External collaborators of `GenerateSTLRange`, supplied as inputs of
the embedding: the logger (a single flag covering its calls during this
invocation), `geometry.GridSize`, `geometry.CalculateMultiYearDimensions`,
the four producer channel values, the outcome of reading `character.stl`
(format detection included), and the outcome of `WriteSTLBinary`. -/
structure GenEnv where
  logOk : Bool
  gridSize : Nat
  multiYearDims : Nat → ℚ × ℚ
  orch : OrchResults
  charRead : Except Err (List Triangle)
  writeResult : Option Err

/-- `calculateDimensions`: dimensions from the year count, with the
positivity checks of the source and the fixed logo image path. -/
def calculateDimensions (env : GenEnv) (yearCount : Nat) : Except Err ModelDims :=
  if yearCount = 0 then
    .error (.validation "year count must be positive")
  else
    let wd := env.multiYearDims yearCount
    let dims : ModelDims := ⟨wd.1, wd.2, "assets/invertocat.png"⟩
    if dims.innerWidth ≤ 0 ∨ dims.innerDepth ≤ 0 then
      .error (.validation "invalid model dimensions")
    else
      .ok dims

/-- The `character.stl` merge step of `GenerateSTLRange`: on a successful
non-empty read, append the repositioned character mesh and log at info
level; otherwise log at debug level. A failed log call aborts with the
wrapped log error. -/
def characterStep (env : GenEnv) (dims : ModelDims) (modelTriangles : List Triangle) :
    Except Err (List Triangle) :=
  match env.charRead with
  | .ok cts =>
    if 0 < cts.length then
      if env.logOk then .ok (modelTriangles ++ mergeCharacter dims cts)
      else .error (.wrap "failed to log info message" .logFailure)
    else
      if env.logOk then .ok modelTriangles
      else .error (.wrap "failed to log debug message" .logFailure)
  | .error _ =>
    if env.logOk then .ok modelTriangles
    else .error (.wrap "failed to log debug message" .logFailure)

/-- `GenerateSTLRange`: debug log, input validation (note the `[0]` index
into the year list before any emptiness check on it), dimension
calculation, global maximum, concurrent geometry generation, optional
`character.stl` merge, file write. The second component lists the
geometry-producing tasks that were launched. -/
def GenerateSTLRange (env : GenEnv) (contributions : List YearGrid)
    (outputPath username : String) (_startYear _endYear : Int)
    (_topText _rightText : String) : Outcome × List String :=
  if env.logOk = false then
    (.err (.wrap "failed to log debug message" .logFailure), [])
  else
    match contributions with
    | [] => (.panics "index out of range", [])
    | c0 :: rest =>
      match validateInput env.gridSize c0 outputPath username with
      | some e => (.err (.wrap "input validation failed" e), [])
      | none =>
        match calculateDimensions env (c0 :: rest).length with
        | .error e => (.err (.wrap "failed to calculate dimensions" e), [])
        | .ok dims =>
          let maxContribution := findMaxContributionsAcrossYears (c0 :: rest)
          let _ := maxContribution
          match generateModelGeometry env.orch [] (c0 :: rest) with
          | (.error e, launched) =>
            (.err (.wrap "failed to generate geometry" e), launched)
          | (.ok modelTriangles, launched) =>
            match characterStep env dims modelTriangles with
            | .error e => (.err e, launched)
            | .ok allTriangles =>
              let _ := allTriangles
              if env.logOk = false then
                (.err (.wrap "failed to log info message" .logFailure), launched)
              else if env.logOk = false then
                (.err (.wrap "failed to log debug message" .logFailure), launched)
              else
                match env.writeResult with
                | some e => (.err (.wrap "failed to write STL file" e), launched)
                | none =>
                  if env.logOk = false then
                    (.err (.wrap "failed to log info message" .logFailure), launched)
                  else
                    (.ok, launched)

/-- `GenerateSTL`: the single-year wrapper around `GenerateSTLRange`. -/
def GenerateSTL (env : GenEnv) (contributions : YearGrid)
    (outputPath username : String) (year : Int) (topText rightText : String) :
    Outcome × List String :=
  GenerateSTLRange env [contributions] outputPath username year year topText rightText

/-! ## Concrete sample inputs used to evaluate the verified statements -/

/-- A sample triangle with a non-trivial normal and vertices on z = 0. -/
def tri0 : Triangle := ⟨⟨1, 2, 3⟩, ⟨0, 0, 0⟩, ⟨10, 0, 0⟩, ⟨0, 10, 0⟩⟩

/-- Sample model dimensions. -/
def dims0 : ModelDims := ⟨100, 100, "assets/invertocat.png"⟩

/-- Sample error-free producer results. -/
def orch0 : OrchResults := ⟨⟨[tri0], none⟩, ⟨[], none⟩, ⟨[], none⟩, ⟨[], none⟩⟩

/-- A sample one-year, one-week, one-day contribution range. -/
def cs0 : List YearGrid := [[[⟨"2023-01-01", 5⟩]]]

/-- A sample external environment: working logger, no auxiliary mesh,
successful write. -/
def env0 : GenEnv := ⟨true, 53, fun _ => (10, 10), orch0, .ok [], none⟩

/-- A text builder that always fails to load a font. -/
def c3dtFail : String → String → String → Except Err (List Triangle) :=
  fun _ _ _ => .error (.io "failed to load any fonts")

/-- A float parser that fails on every field. -/
def pfNone : String → Option ℚ := fun _ => none

/-- Sample ASCII STL lines whose numeric fields all fail to parse. -/
def linesW : List String :=
  ["facet normal aa bb cc", "vertex p q r", "vertex p q r", "vertex p q r", "endfacet"]

/-- A column builder that always succeeds. -/
def colOk : ℚ → ℚ → ℚ → ℚ → Except Err (List Triangle) := fun _ _ _ _ => .ok [tri0]

/-- A cube builder that always succeeds. -/
def cubeOk : ℚ → ℚ → ℚ → ℚ → ℚ → ℚ → Except Err (List Triangle) :=
  fun _ _ _ _ _ _ => .ok [tri0]

/-- A 1x2 sample image: the pixel at `y = 0` is active, the other is not. -/
def img0 : GoImage := ⟨1, 2, fun _ _ => 60000, fun _ y => if y = 0 then 60000 else 0⟩

/-- A sample year grid with one inactive and one active cell. -/
def grid1 : List (List ContributionDay) := [[⟨"d1", 0⟩, ⟨"d2", 3⟩]]

/-! ## Theorems -/

/-- Claim C9: translating a mesh by `(dx, dy, dz)` and then translating
the result by `(-dx, -dy, -dz)` reproduces the original mesh (exactly, in
the exact-arithmetic embedding, hence within any floating-point epsilon),
and translation leaves every triangle's normal vector unchanged. -/
theorem claim_C9 (ts : List Triangle) (dx dy dz : ℚ) :
    translateTriangles (translateTriangles ts dx dy dz) (-dx) (-dy) (-dz) = ts ∧
    (translateTriangles ts dx dy dz).map Triangle.normal = ts.map Triangle.normal := by
  constructor
  · induction ts with
    | nil => rfl
    | cons t ts ih =>
      simp only [translateTriangles, List.map_cons] at ih ⊢
      rw [List.cons_eq_cons]
      refine ⟨?_, ih⟩
      cases t with
      | mk n v1 v2 v3 =>
        cases v1
        cases v2
        cases v3
        simp [add_neg_cancel_right]
  · induction ts with
    | nil => rfl
    | cons t ts ih =>
      simp only [translateTriangles, List.map_cons] at ih ⊢
      rw [List.cons_eq_cons]
      exact ⟨rfl, ih⟩

/-- Claim C2, counterexample: the source's scale operation does NOT
multiply the normal components by the factor (it copies the normal),
so it differs from the specification's description at this input. -/
theorem claim_C2_counterexample :
    scaleTriangles [tri0] 2 ≠ scaleTrianglesPerSpec [tri0] 2 ∧
    (scaleTriangles [tri0] 2).map Triangle.normal = [tri0.normal] := by
  refine ⟨fun h => ?_, by simp [scaleTriangles, tri0]⟩
  have h2 := congrArg (fun l => (l.map Triangle.normal).map Point3D.x) h
  simp [scaleTriangles, scaleTrianglesPerSpec, scalePoint, tri0] at h2

/-- Claim C2, amended: `scaleTriangles` multiplies every vertex
coordinate of every triangle by the factor and leaves every triangle's
normal vector unchanged. -/
theorem claim_C2_amended (ts : List Triangle) (s : ℚ) :
    (scaleTriangles ts s).map Triangle.normal = ts.map Triangle.normal ∧
    (scaleTriangles ts s).map Triangle.v1 = (ts.map Triangle.v1).map (scalePoint s) ∧
    (scaleTriangles ts s).map Triangle.v2 = (ts.map Triangle.v2).map (scalePoint s) ∧
    (scaleTriangles ts s).map Triangle.v3 = (ts.map Triangle.v3).map (scalePoint s) := by
  refine ⟨?_, ?_, ?_, ?_⟩ <;>
    · induction ts with
      | nil => rfl
      | cons t ts ih =>
        simp only [scaleTriangles, scalePoint, List.map_cons] at ih ⊢
        rw [List.cons_eq_cons]
        exact ⟨rfl, ih⟩

/-- Claim C1: for fixed producer results, the orchestrator's output does
not depend on the completion order of the concurrent tasks, and equals
the producers' triangle lists concatenated in the fixed order base,
image, columns, text; two runs on identical inputs therefore yield the
identical triangle sequence. -/
theorem claim_C1 (results : OrchResults) (ord1 ord2 : List String) (cs : List YearGrid)
    (hne : cs ≠ [])
    (hb : results.base.err = none) (hi : results.image.err = none)
    (hc : results.columns.err = none) (ht : results.text.err = none) :
    generateModelGeometry results ord1 cs = generateModelGeometry results ord2 cs ∧
    (generateModelGeometry results ord1 cs).1 =
      .ok (results.base.triangles ++ results.image.triangles ++
        results.columns.triangles ++ results.text.triangles) := by
  refine ⟨rfl, ?_⟩
  cases cs with
  | nil => exact absurd rfl hne
  | cons c rest =>
    simp [generateModelGeometry, mergeLoop, hb, hi, hc, ht]

/-- Witness for claim C1 at concrete inputs. -/
theorem claim_C1_witness :
    (generateModelGeometry orch0 ["text", "base"] cs0).1 =
      .ok (orch0.base.triangles ++ orch0.image.triangles ++
        orch0.columns.triangles ++ orch0.text.triangles) :=
  (claim_C1 orch0 ["text", "base"] [] cs0 (by decide) rfl rfl rfl rfl).2

/-- Claim C6: when a whole geometry producer (base, text, or logo) fails,
it reports an empty mesh with no error and the orchestrator completes
(generation continues), EXCEPT when the warning log call itself fails: the
producer then reports the log error as its result and the orchestrator
aborts with that error wrapped as fatal. -/
theorem claim_C6 (bRes lRes : Except Err (List Triangle))
    (c3dt : String → String → String → Except Err (List Triangle))
    (u tt rt : String) (sy ey : Int) (eb et el : Err)
    (hbe : bRes = .error eb)
    (hte : c3dt u (embossedRightText sy ey rt) tt = .error et)
    (hle : lRes = .error el) :
    (generateBase bRes none = ⟨[], none⟩ ∧
     generateText c3dt u sy ey tt rt none = ⟨[], none⟩ ∧
     generateLogoWithCustomPath lRes none = ⟨[], none⟩) ∧
    (∀ (rc : geometryResult) (ord : List String) (cs : List YearGrid),
      rc.err = none → cs ≠ [] →
      (generateModelGeometry
        ⟨generateBase bRes none, rc, generateText c3dt u sy ey tt rt none,
         generateLogoWithCustomPath lRes none⟩ ord cs).1 = .ok rc.triangles) ∧
    (∀ logErr : Err,
      generateBase bRes (some logErr) = ⟨[], some logErr⟩ ∧
      generateText c3dt u sy ey tt rt (some logErr) = ⟨[], some logErr⟩ ∧
      generateLogoWithCustomPath lRes (some logErr) = ⟨[], some logErr⟩) ∧
    (∀ (logErr : Err) (rc rt2 ri : geometryResult) (ord : List String) (cs : List YearGrid),
      cs ≠ [] →
      (generateModelGeometry ⟨generateBase bRes (some logErr), rc, rt2, ri⟩ ord cs).1 =
        .error (.wrap "failed to generate base geometry" logErr)) ∧
    (∀ (logErr : Err) (rb rc ri : geometryResult) (ord : List String) (cs : List YearGrid),
      cs ≠ [] → rb.err = none → ri.err = none → rc.err = none →
      (generateModelGeometry
        ⟨rb, rc, generateText c3dt u sy ey tt rt (some logErr), ri⟩ ord cs).1 =
        .error (.wrap "failed to generate text geometry" logErr)) := by
  refine ⟨⟨?_, ?_, ?_⟩, ?_, ?_, ?_, ?_⟩
  · simp [generateBase, hbe]
  · simp [generateText, hte]
  · simp [generateLogoWithCustomPath, hle]
  · intro rc ord cs hrc hcs
    cases cs with
    | nil => exact absurd rfl hcs
    | cons c rest =>
      simp [generateModelGeometry, mergeLoop, generateBase, generateText,
        generateLogoWithCustomPath, hbe, hte, hle, hrc]
  · intro logErr
    refine ⟨by simp [generateBase, hbe], by simp [generateText, hte],
      by simp [generateLogoWithCustomPath, hle]⟩
  · intro logErr rc rt2 ri ord cs hcs
    cases cs with
    | nil => exact absurd rfl hcs
    | cons c rest =>
      simp [generateModelGeometry, mergeLoop, generateBase, hbe]
  · intro logErr rb rc ri ord cs hcs hrb hri hrc
    cases cs with
    | nil => exact absurd rfl hcs
    | cons c rest =>
      simp [generateModelGeometry, mergeLoop, generateText, hte, hrb, hri, hrc]

/-- Witness for claim C6 at concrete inputs: with a failing base, text
and logo producer and a working logger, the orchestrator returns exactly
the columns producer's triangles. -/
theorem claim_C6_witness :
    (generateModelGeometry
      ⟨generateBase (.error (.stl "degenerate")) none, ⟨[tri0], none⟩,
       generateText c3dtFail "alice" 2023 2023 "" "" none,
       generateLogoWithCustomPath (.error (.io "failed to open image")) none⟩
      ["image", "base"] cs0).1 = .ok [tri0] :=
  (claim_C6 (.error (.stl "degenerate"))
      (.error (.io "failed to open image")) c3dtFail "alice" "" ""
      2023 2023 (.stl "degenerate") (.io "failed to load any fonts")
      (.io "failed to open image") rfl rfl rfl).2.1
    ⟨[tri0], none⟩ ["image", "base"] cs0 rfl (by decide)

/-- A result with `exceptOk` is an `ok` value. -/
theorem exceptOk_exists {r : Except Err (List Triangle)} (h : exceptOk r = true) :
    ∃ ts, r = .ok ts := by
  cases r with
  | ok ts => exact ⟨ts, rfl⟩
  | error e => simp [exceptOk] at h

/-- The day loop of the column generator matches the per-cell reference
geometry when every column build succeeds. -/
theorem daysLoop_eq_spec (CellSize YearOffset YearSpacing : ℚ)
    (NormalizeContribution : Nat → Nat → ℚ)
    (CreateColumn : ℚ → ℚ → ℚ → ℚ → Except Err (List Triangle)) (warnOk : Bool)
    (hok : ∀ x y h s, exceptOk (CreateColumn x y h s) = true)
    (maxContrib yearIndex weekIdx : Nat) (days : List ContributionDay) (dayIdx : Nat) :
    daysLoop CellSize NormalizeContribution CreateColumn warnOk maxContrib
      ((weekIdx : ℚ) * CellSize) ((yearIndex : ℚ) * (YearOffset + YearSpacing)) dayIdx days
    = some (columnsSpecDays CellSize YearOffset YearSpacing NormalizeContribution
        CreateColumn yearIndex weekIdx maxContrib dayIdx days) := by
  induction days generalizing dayIdx with
  | nil => rfl
  | cons day rest ih =>
    simp only [daysLoop, columnsSpecDays]
    by_cases hday : day.contributionCount > 0
    · simp only [hday, if_true]
      obtain ⟨ts, hts⟩ := exceptOk_exists (hok ((weekIdx : ℚ) * CellSize)
        ((yearIndex : ℚ) * (YearOffset + YearSpacing) + (dayIdx : ℚ) * CellSize)
        (NormalizeContribution day.contributionCount maxContrib) CellSize)
      rw [hts, ih]
      simp [columnAt, okList, hts]
    · simp only [hday, if_false]
      rw [ih]
      simp

/-- The week loop of the column generator matches the reference geometry
when every column build succeeds. -/
theorem weeksLoop_eq_spec (CellSize YearOffset YearSpacing : ℚ)
    (NormalizeContribution : Nat → Nat → ℚ)
    (CreateColumn : ℚ → ℚ → ℚ → ℚ → Except Err (List Triangle)) (warnOk : Bool)
    (hok : ∀ x y h s, exceptOk (CreateColumn x y h s) = true)
    (maxContrib yearIndex : Nat) (weeks : List (List ContributionDay)) (weekIdx : Nat) :
    weeksLoop CellSize NormalizeContribution CreateColumn warnOk maxContrib
      ((yearIndex : ℚ) * (YearOffset + YearSpacing)) weekIdx weeks
    = some (columnsSpec CellSize YearOffset YearSpacing NormalizeContribution
        CreateColumn yearIndex maxContrib weekIdx weeks) := by
  induction weeks generalizing weekIdx with
  | nil => rfl
  | cons week rest ih =>
    simp only [weeksLoop, columnsSpec]
    rw [daysLoop_eq_spec CellSize YearOffset YearSpacing NormalizeContribution
      CreateColumn warnOk hok maxContrib yearIndex weekIdx week 0, ih]

/-- Claim C4: for a year grid at depth index `yearIndex`, the column
generator emits, for exactly the cells with positive count, the
`CreateColumn` box at `x = weekIdx * CellSize`,
`y = yearIndex * (YearOffset + YearSpacing) + dayIdx * CellSize`, with
height `NormalizeContribution count maxContrib`; cells with count 0
contribute no triangles (the reference `columnsSpec`/`columnAt` spell
this out), provided every column build succeeds. -/
theorem claim_C4 (CellSize YearOffset YearSpacing : ℚ)
    (NormalizeContribution : Nat → Nat → ℚ)
    (CreateColumn : ℚ → ℚ → ℚ → ℚ → Except Err (List Triangle)) (warnOk : Bool)
    (contributions : List (List ContributionDay)) (yearIndex maxContrib : Nat)
    (hok : ∀ x y h s, exceptOk (CreateColumn x y h s) = true) :
    CreateContributionGeometry CellSize YearOffset YearSpacing NormalizeContribution
      CreateColumn warnOk contributions yearIndex maxContrib
    = columnsSpec CellSize YearOffset YearSpacing NormalizeContribution CreateColumn
        yearIndex maxContrib 0 contributions := by
  show (weeksLoop CellSize NormalizeContribution CreateColumn warnOk maxContrib
      ((yearIndex : ℚ) * (YearOffset + YearSpacing)) 0 contributions).getD []
    = columnsSpec CellSize YearOffset YearSpacing NormalizeContribution CreateColumn
        yearIndex maxContrib 0 contributions
  rw [weeksLoop_eq_spec CellSize YearOffset YearSpacing NormalizeContribution
    CreateColumn warnOk hok maxContrib yearIndex contributions 0]
  rfl

/-- Witness for claim C4 at concrete inputs. -/
theorem claim_C4_witness :
    CreateContributionGeometry 2 10 4 (fun c _ => (c : ℚ)) colOk true grid1 1 3
    = columnsSpec 2 10 4 (fun c _ => (c : ℚ)) colOk 1 3 0 grid1 :=
  claim_C4 2 10 4 (fun c _ => (c : ℚ)) colOk true grid1 1 3 (fun _ _ _ _ => rfl)

/-- A voxel request succeeds whenever the underlying cube builder does. -/
theorem imageVoxelCall_ok (CreateCube : ℚ → ℚ → ℚ → ℚ → ℚ → ℚ → Except Err (List Triangle))
    (hok : ∀ a b c d e f, exceptOk (CreateCube a b c d e f) = true)
    (scale height leftOff topOff baseWidth baseHeight faceWidthRes faceHeightRes : ℚ)
    (x y : Nat) :
    exceptOk (imageVoxelCall CreateCube scale height leftOff topOff baseWidth baseHeight
      faceWidthRes faceHeightRes x y) = true := by
  simp only [imageVoxelCall, createVoxelOnFace]
  exact hok _ _ _ _ _ _

/-- The inner pixel loop of `renderImage` matches the per-pixel reference
geometry when every cube build succeeds. -/
theorem imageColLoop_eq_spec (CreateCube : ℚ → ℚ → ℚ → ℚ → ℚ → ℚ → Except Err (List Triangle))
    (hok : ∀ a b c d e f, exceptOk (CreateCube a b c d e f) = true)
    (img : GoImage) (scale height leftOff topOff baseWidth baseHeight : ℚ)
    (faceWidthRes faceHeightRes : ℚ) (x n : Nat) :
    imageColLoop CreateCube img scale height leftOff topOff baseWidth baseHeight
      faceWidthRes faceHeightRes x n
    = .ok (imageColSpec CreateCube img scale height leftOff topOff baseWidth baseHeight
        faceWidthRes faceHeightRes x n) := by
  induction n with
  | zero => rfl
  | succ n ih =>
    simp only [imageColLoop, imageColSpec]
    cases hact : imagePixelActive img x n with
    | false => simp [hact, ih]
    | true =>
      simp only [hact, if_true]
      obtain ⟨ts, hts⟩ := exceptOk_exists (imageVoxelCall_ok CreateCube hok scale height
        leftOff topOff baseWidth baseHeight faceWidthRes faceHeightRes x n)
      rw [hts, ih]
      simp [okList, hts]

/-- The outer pixel loop of `renderImage` matches the reference geometry
when every cube build succeeds. -/
theorem imageXLoop_eq_spec (CreateCube : ℚ → ℚ → ℚ → ℚ → ℚ → ℚ → Except Err (List Triangle))
    (hok : ∀ a b c d e f, exceptOk (CreateCube a b c d e f) = true)
    (img : GoImage) (scale height leftOff topOff baseWidth baseHeight : ℚ)
    (faceWidthRes faceHeightRes : ℚ) (n x : Nat) :
    imageXLoop CreateCube img scale height leftOff topOff baseWidth baseHeight
      faceWidthRes faceHeightRes x n
    = .ok (imageSpec CreateCube img scale height leftOff topOff baseWidth baseHeight
        faceWidthRes faceHeightRes x n) := by
  induction n generalizing x with
  | zero => rfl
  | succ n ih =>
    simp only [imageXLoop, imageSpec]
    rw [imageColLoop_eq_spec CreateCube hok img scale height leftOff topOff
      baseWidth baseHeight faceWidthRes faceHeightRes x img.height, ih]

/-- Claim C7: in the image-to-voxel path, a source pixel produces its
voxel box exactly when both its alpha channel and its red channel exceed
32768 (50% of the 2^16 full scale), and pixels failing either test
produce no geometry: `renderImage` equals the reference `imageSpec`,
whose per-pixel clause is guarded by `imagePixelActive` (alpha > 32768
AND red > 32768), provided every cube build succeeds. -/
theorem claim_C7 (CreateCube : ℚ → ℚ → ℚ → ℚ → ℚ → ℚ → Except Err (List Triangle))
    (img : GoImage) (scale height leftOff topOff baseWidth baseHeight : ℚ)
    (hok : ∀ a b c d e f, exceptOk (CreateCube a b c d e f) = true) :
    renderImage CreateCube img scale height leftOff topOff baseWidth baseHeight
    = .ok (imageSpec CreateCube img scale height leftOff topOff baseWidth baseHeight
        baseWidthVoxelResolution
        (goTrunc (baseWidthVoxelResolution * baseHeight / baseWidth)) 0 img.width) := by
  show imageXLoop CreateCube img scale height leftOff topOff baseWidth baseHeight
      baseWidthVoxelResolution
      (goTrunc (baseWidthVoxelResolution * baseHeight / baseWidth)) 0 img.width = _
  rw [imageXLoop_eq_spec CreateCube hok img scale height leftOff topOff baseWidth
    baseHeight baseWidthVoxelResolution
    (goTrunc (baseWidthVoxelResolution * baseHeight / baseWidth)) img.width 0]

/-- Witness for claim C7 at concrete inputs. -/
theorem claim_C7_witness :
    renderImage cubeOk img0 1 1 0 0 100 50
    = .ok (imageSpec cubeOk img0 1 1 0 0 100 50 baseWidthVoxelResolution
        (goTrunc (baseWidthVoxelResolution * 50 / 100)) 0 img0.width) :=
  claim_C7 cubeOk img0 1 1 0 0 100 50 (fun _ _ _ _ _ _ => rfl)

/-- A list of length at least 5 splits into five heads and a tail. -/
theorem exists_cons5 (l : List String) (h : 5 ≤ l.length) :
    ∃ a b c d e r, l = a :: b :: c :: d :: e :: r := by
  rcases l with _ | ⟨a, _ | ⟨b, _ | ⟨c, _ | ⟨d, _ | ⟨e, r⟩⟩⟩⟩⟩
  · simp at h
  · simp at h
  · simp at h
  · simp at h
  · simp at h
  · exact ⟨a, b, c, d, e, r, rfl⟩

/-- A list of length at least 4 splits into four heads and a tail. -/
theorem exists_cons4 (l : List String) (h : 4 ≤ l.length) :
    ∃ a b c d r, l = a :: b :: c :: d :: r := by
  rcases l with _ | ⟨a, _ | ⟨b, _ | ⟨c, _ | ⟨d, r⟩⟩⟩⟩
  · simp at h
  · simp at h
  · simp at h
  · simp at h
  · exact ⟨a, b, c, d, r, rfl⟩

/-- One scanner step succeeds on any line whose keyword lines carry the
indexed fields, whatever the parser does. -/
theorem readLine_ok (pf : String → Option ℚ) (line : String) (hline : lineFieldsOk line)
    (st : ReadState) : ∃ st2, readLine pf line st = .ok st2 := by
  obtain ⟨nrm, vs, tris⟩ := st
  unfold readLine
  dsimp only
  cases h1 : goHasPrefix (goTrim line.data) "facet normal".data with
  | true =>
    obtain ⟨a, b, c, d, e, r, hf⟩ := exists_cons5 _ (hline.1 h1)
    rw [hf]
    exact ⟨_, rfl⟩
  | false =>
    cases h2 : goHasPrefix (goTrim line.data) "vertex".data with
    | true =>
      obtain ⟨a, b, c, d, r, hf⟩ := exists_cons4 _ (hline.2 h2)
      rw [hf]
      exact ⟨_, rfl⟩
    | false =>
      cases h3 : goHasPrefix (goTrim line.data) "endfacet".data with
      | true =>
        rcases vs with _ | ⟨u, _ | ⟨v, _ | ⟨w, _ | ⟨q, vr⟩⟩⟩⟩ <;> exact ⟨_, rfl⟩
      | false =>
        exact ⟨_, rfl⟩

/-- The scanner loop of `ReadASCIISTL` returns normally on any input
whose keyword lines carry the indexed fields, whatever the parser does. -/
theorem readLoop_ok (pf : String → Option ℚ) (lines : List String)
    (h : ∀ line ∈ lines, lineFieldsOk line) :
    ∀ st, ∃ ts, readLoop pf lines st = .ok ts := by
  induction lines with
  | nil => exact fun st => ⟨st.triangles, rfl⟩
  | cons line rest ih =>
    intro st
    have hrest : ∀ l ∈ rest, lineFieldsOk l := fun l hl => h l (List.mem_cons_of_mem _ hl)
    obtain ⟨st2, h2⟩ := readLine_ok pf line (h line (List.mem_cons_self line rest)) st
    simp only [readLoop, h2]
    exact ih hrest st2

/-- Claim C8: `ReadASCIISTL` never turns a malformed numeric field into a
whole-file error: on any input whose keyword lines have their indexed
fields present, the read returns normally whatever the float parser
rejects, and every rejected field is read as the value 0
(`parseOrZero`, the embedding of the discarded `ParseFloat` error). -/
theorem claim_C8 (pf : String → Option ℚ) (lines : List String)
    (h : ∀ line ∈ lines, lineFieldsOk line) :
    (∃ ts, ReadASCIISTL pf lines = .ok ts) ∧
    (∀ s, pf s = none → parseOrZero pf s = 0) := by
  refine ⟨readLoop_ok pf lines h ⟨⟨0, 0, 0⟩, [], []⟩, ?_⟩
  intro s hs
  simp [parseOrZero, hs]

/-- Witness for claim C8: a facet whose every numeric field fails to
parse is still read successfully, with 0 substituted per field. -/
theorem claim_C8_witness :
    (∃ ts, ReadASCIISTL pfNone linesW = .ok ts) ∧ parseOrZero pfNone "aa" = 0 :=
  ⟨(claim_C8 pfNone linesW (by decide)).1, (claim_C8 pfNone linesW (by decide)).2 "aa" rfl⟩

/-- One min-comparison step never exceeds its accumulator. -/
theorem stepMin_le_left (m z : ℚ) : stepMin m z ≤ m := by
  unfold stepMin
  split
  · exact le_of_lt (by assumption)
  · exact le_refl m

/-- One min-comparison step never exceeds its new value. -/
theorem stepMin_le_right (m z : ℚ) : stepMin m z ≤ z := by
  unfold stepMin
  split
  · exact le_refl z
  · exact le_of_not_lt (by assumption)

/-- One min-comparison step returns one of its two arguments. -/
theorem stepMin_cases (m z : ℚ) : stepMin m z = z ∨ stepMin m z = m := by
  unfold stepMin
  split
  · exact Or.inl rfl
  · exact Or.inr rfl

/-- The min fold never exceeds its seed. -/
theorem foldlMin_le_init (zs : List ℚ) : ∀ m : ℚ, zs.foldl stepMin m ≤ m := by
  induction zs with
  | nil => exact fun m => le_refl m
  | cons z zs ih => exact fun m => le_trans (ih (stepMin m z)) (stepMin_le_left m z)

/-- The min fold is a lower bound of the folded values. -/
theorem foldlMin_le_mem (zs : List ℚ) : ∀ (m z : ℚ), z ∈ zs → zs.foldl stepMin m ≤ z := by
  induction zs with
  | nil => intro m z hz; cases hz
  | cons w zs ih =>
    intro m z hz
    rcases List.mem_cons.mp hz with h | h
    · subst h
      exact le_trans (foldlMin_le_init zs _) (stepMin_le_right m z)
    · exact ih _ _ h

/-- The min fold returns the seed or one of the folded values. -/
theorem foldlMin_mem (zs : List ℚ) : ∀ m : ℚ, zs.foldl stepMin m ∈ m :: zs := by
  induction zs with
  | nil => intro m; exact List.mem_singleton.mpr rfl
  | cons w zs ih =>
    intro m
    have h := ih (stepMin m w)
    show zs.foldl stepMin (stepMin m w) ∈ m :: w :: zs
    rcases List.mem_cons.mp h with h1 | h1
    · rw [h1]
      rcases stepMin_cases m w with h3 | h3
      · rw [h3]
        exact List.mem_cons_of_mem _ (List.mem_cons_self _ _)
      · rw [h3]
        exact List.mem_cons_self _ _
    · exact List.mem_cons_of_mem _ (List.mem_cons_of_mem _ h1)

/-- The `minZ` accumulator of the bounding-box fold is the min fold of
the Z coordinates. -/
theorem bboxFold_minZ (ts : List Triangle) :
    ∀ b : BBox,
      (ts.foldl (fun b t => bboxStep (bboxStep (bboxStep b t.v1) t.v2) t.v3) b).minZ
        = (zlist ts).foldl stepMin b.minZ := by
  induction ts with
  | nil => exact fun _ => rfl
  | cons t ts ih =>
    intro b
    show (ts.foldl _ (bboxStep (bboxStep (bboxStep b t.v1) t.v2) t.v3)).minZ = _
    rw [ih]
    rfl

/-- `calcBoundingBox` computes `minZ` as the min fold of the Z
coordinates seeded with `math.MaxFloat64`. -/
theorem calcBoundingBox_minZ (ts : List Triangle) :
    (calcBoundingBox ts).minZ = (zlist ts).foldl stepMin maxFloat64 := by
  unfold calcBoundingBox
  rw [bboxFold_minZ]

/-- Translating shifts every Z coordinate by `dz`. -/
theorem zlist_translate (ts : List Triangle) (dx dy dz : ℚ) :
    zlist (translateTriangles ts dx dy dz) = (zlist ts).map (· + dz) := by
  induction ts with
  | nil => rfl
  | cons t ts ih =>
    show _ :: _ :: _ :: zlist (translateTriangles ts dx dy dz) = _
    rw [ih]
    rfl

/-- A non-empty triangle list has a non-empty Z-coordinate list. -/
theorem zlist_ne_nil (ts : List Triangle) (h : ts ≠ []) : zlist ts ≠ [] := by
  cases ts with
  | nil => exact absurd rfl h
  | cons t ts => simp [zlist]

/-- Claim C3, counterexample: the Z offset the character merge applies is
NOT `-boundingBoxMinZ`; at this input the minimum Z coordinate of the
merged auxiliary mesh is `-1/2`, not 0 (the source subtracts a further
0.5). -/
theorem claim_C3_counterexample :
    (calcBoundingBox (mergeCharacter dims0 [tri0])).minZ ≠ 0 ∧
    (calcBoundingBox (mergeCharacter dims0 [tri0])).minZ = -(1 / 2) := by
  have h : (calcBoundingBox (mergeCharacter dims0 [tri0])).minZ = -(1 / 2) := by
    norm_num [mergeCharacter, scaleTriangles, translateTriangles, calcBoundingBox,
      bboxStep, maxFloat64, tri0, dims0, List.foldl]
  exact ⟨by rw [h]; norm_num, h⟩

/-- Claim C3, amended: the character merge translates the scaled
auxiliary mesh with the Z offset `-boundingBoxMinZ - 0.5`, so after
translation the minimum Z coordinate of the auxiliary mesh equals `-1/2`
(sunk 0.5 mm into the base), not 0: every merged Z coordinate is at least
`-1/2` and `-1/2` is attained. -/
theorem claim_C3_amended (dims : ModelDims) (ts : List Triangle) (hne : ts ≠ [])
    (hb : ∀ z ∈ zlist (scaleTriangles ts (7 / 10)), z < maxFloat64) :
    (∀ z ∈ zlist (mergeCharacter dims ts), -(1 / 2 : ℚ) ≤ z) ∧
    (-(1 / 2 : ℚ)) ∈ zlist (mergeCharacter dims ts) := by
  have hz : zlist (mergeCharacter dims ts) =
      (zlist (scaleTriangles ts (7 / 10))).map
        (· + (0 - (calcBoundingBox (scaleTriangles ts (7 / 10))).minZ - 1 / 2)) :=
    zlist_translate _ _ _ _
  have hminZ := calcBoundingBox_minZ (scaleTriangles ts (7 / 10))
  have hsne : scaleTriangles ts (7 / 10) ≠ [] := by
    intro hcon
    exact hne (List.map_eq_nil_iff.mp hcon)
  have hS : zlist (scaleTriangles ts (7 / 10)) ≠ [] := zlist_ne_nil _ hsne
  obtain ⟨z0, hz0⟩ := List.exists_mem_of_ne_nil _ hS
  have hmeS : (calcBoundingBox (scaleTriangles ts (7 / 10))).minZ
      ∈ zlist (scaleTriangles ts (7 / 10)) := by
    rw [hminZ]
    rcases List.mem_cons.mp (foldlMin_mem (zlist (scaleTriangles ts (7 / 10))) maxFloat64)
      with h1 | h1
    · exfalso
      have hle := foldlMin_le_mem (zlist (scaleTriangles ts (7 / 10))) maxFloat64 z0 hz0
      rw [h1] at hle
      exact absurd hle (not_le.mpr (hb z0 hz0))
    · exact h1
  constructor
  · intro z hzm
    rw [hz] at hzm
    obtain ⟨w, hw, rfl⟩ := List.mem_map.mp hzm
    have hle : (calcBoundingBox (scaleTriangles ts (7 / 10))).minZ ≤ w := by
      rw [hminZ]
      exact foldlMin_le_mem _ _ _ hw
    linarith
  · rw [hz]
    refine List.mem_map.mpr ⟨(calcBoundingBox (scaleTriangles ts (7 / 10))).minZ, hmeS, ?_⟩
    ring

/-- Witness for claim C3 (amended) at concrete inputs. -/
theorem claim_C3_witness :
    (∀ z ∈ zlist (mergeCharacter dims0 [tri0]), -(1 / 2 : ℚ) ≤ z) ∧
    (-(1 / 2 : ℚ)) ∈ zlist (mergeCharacter dims0 [tri0]) :=
  claim_C3_amended dims0 [tri0] (by simp)
    (by norm_num [scaleTriangles, zlist, tri0, maxFloat64])

/-- `validateInput` rejects an empty grid, an empty output path and an
empty username with a `ValidationError`. -/
theorem validateInput_some_of_trigger (gs : Nat) (c : List (List ContributionDay))
    (p u : String) (h : c = [] ∨ p = "" ∨ u = "") :
    ∃ msg, validateInput gs c p u = some (.validation msg) := by
  unfold validateInput
  split_ifs with h1 h2 h3 h4
  · exact ⟨_, rfl⟩
  · exact ⟨_, rfl⟩
  · exact ⟨_, rfl⟩
  · exact ⟨_, rfl⟩
  · exfalso
    rcases h with h | h | h
    · exact h1 (by rw [h]; rfl)
    · exact h3 h
    · exact h4 h

/-- Claim C5: with a working logger, `GenerateSTL` on an empty grid (and
likewise on an empty output path or username) returns a wrapped
`ValidationError` and launches no geometry-producing task (the launched
list is empty). -/
theorem claim_C5 (env : GenEnv) (grid : YearGrid) (outputPath username : String)
    (year : Int) (topText rightText : String)
    (hlog : env.logOk = true)
    (htrig : grid = [] ∨ outputPath = "" ∨ username = "") :
    ∃ msg, GenerateSTL env grid outputPath username year topText rightText =
      (.err (.wrap "input validation failed" (.validation msg)), []) := by
  obtain ⟨msg, hv⟩ := validateInput_some_of_trigger env.gridSize grid outputPath username htrig
  refine ⟨msg, ?_⟩
  unfold GenerateSTL GenerateSTLRange
  simp [hlog, hv]

/-- Witness for claim C5 at concrete inputs. -/
theorem claim_C5_witness :
    ∃ msg, GenerateSTL env0 [] "out.stl" "alice" 2023 "" "" =
      (.err (.wrap "input validation failed" (.validation msg)), []) :=
  claim_C5 env0 [] "out.stl" "alice" 2023 "" "" rfl (Or.inl rfl)

/-- The fan-in loop never returns a bare (unwrapped) validation error:
all its errors wrap a producer error with that producer's name. -/
theorem mergeLoop_no_bare_validation :
    ∀ (ps : List (String × geometryResult)) (acc : List Triangle) (msg : String),
      mergeLoop ps acc ≠ .error (.validation msg) := by
  intro ps
  induction ps with
  | nil => intro acc msg h; exact Except.noConfusion h
  | cons pr rest ih =>
    intro acc msg h
    obtain ⟨name, r⟩ := pr
    unfold mergeLoop at h
    rcases hre : r.err with _ | e <;> rw [hre] at h
    · exact ih _ _ h
    · exact Err.noConfusion (Except.error.inj h)

/-- With a working logger the character-merge step always succeeds. -/
theorem characterStep_ok (env : GenEnv) (dims : ModelDims) (mts : List Triangle)
    (h : env.logOk = true) : ∃ ts2, characterStep env dims mts = .ok ts2 := by
  unfold characterStep
  rcases hcr : env.charRead with e | cts
  · rw [h]
    exact ⟨_, rfl⟩
  · by_cases hl : 0 < cts.length
    · simp only [hl, if_true, h]
      exact ⟨_, rfl⟩
    · simp only [hl, if_false, h]
      exact ⟨_, rfl⟩

/-- Two error outcomes wrapping different contexts differ. -/
theorem err_wrap_ne_of_ctx {ctx1 ctx2 : String} {e1 e2 : Err} (h : ctx1 ≠ ctx2) :
    Outcome.err (.wrap ctx1 e1) ≠ Outcome.err (.wrap ctx2 e2) := by
  intro hcon
  injection hcon with h2
  injection h2 with hc he
  exact h hc

/-- Claim C10: `GenerateSTLRange` is safe only for a non-empty year
list: on an empty year list it indexes element 0 before any emptiness
check and panics (with a working logger, the only code before the index),
and the dedicated empty-data `ValidationError` branch of
`generateModelGeometry` is unreachable from it: no run ever returns that
branch's error (wrapped as "failed to generate geometry"). -/
theorem claim_C10 :
    (∀ (env : GenEnv) (p u : String) (sy ey : Int) (tt rt : String), env.logOk = true →
      GenerateSTLRange env [] p u sy ey tt rt = (.panics "index out of range", [])) ∧
    (∀ (env : GenEnv) (cs : List YearGrid) (p u : String) (sy ey : Int) (tt rt : String),
      (GenerateSTLRange env cs p u sy ey tt rt).1 ≠
        .err (.wrap "failed to generate geometry"
          (.validation "contributions data cannot be empty"))) := by
  constructor
  · intro env p u sy ey tt rt h
    unfold GenerateSTLRange
    simp [h]
  · intro env cs p u sy ey tt rt
    by_cases hlog : env.logOk = true
    · unfold GenerateSTLRange
      simp only [hlog, Bool.true_eq_false, if_false]
      cases cs with
      | nil =>
        dsimp only
        exact fun hcon => Outcome.noConfusion hcon
      | cons c0 rest =>
        dsimp only
        rcases hv : validateInput env.gridSize c0 p u with _ | e
        · dsimp only
          rcases hd : calculateDimensions env (c0 :: rest).length with e | dims
          · dsimp only
            exact err_wrap_ne_of_ctx (by decide)
          · dsimp only
            have hmodel : generateModelGeometry env.orch [] (c0 :: rest)
                = (mergeLoop [("base", env.orch.base), ("image", env.orch.image),
                    ("columns", env.orch.columns), ("text", env.orch.text)] [],
                   ["base", "columns", "text", "image"]) := rfl
            rw [hmodel]
            rcases hm : mergeLoop [("base", env.orch.base), ("image", env.orch.image),
                ("columns", env.orch.columns), ("text", env.orch.text)] [] with e | mts
            · dsimp only
              intro hcon
              injection hcon with h2
              injection h2 with hc he
              subst he
              exact mergeLoop_no_bare_validation _ _ _ hm
            · dsimp only
              obtain ⟨ts2, hcs⟩ := characterStep_ok env dims mts hlog
              rw [hcs]
              dsimp only
              rcases hw : env.writeResult with _ | e
              · dsimp only
                exact fun hcon => Outcome.noConfusion hcon
              · dsimp only
                exact err_wrap_ne_of_ctx (by decide)
        · dsimp only
          exact err_wrap_ne_of_ctx (by decide)
    · have hl2 : env.logOk = false := by
        revert hlog
        cases env.logOk <;> simp
      unfold GenerateSTLRange
      simp only [hl2, if_true]
      exact err_wrap_ne_of_ctx (by decide)

/-- Witness for claim C10 at concrete inputs. -/
theorem claim_C10_witness :
    GenerateSTLRange env0 [] "out.stl" "alice" 2023 2023 "" ""
      = (.panics "index out of range", []) :=
  claim_C10.1 env0 "out.stl" "alice" 2023 2023 "" "" rfl

end GhSkyline
